import Mathlib

/-!
Verification of the Calo server daily-nutrition-goals core.

Shallow embedding of the canonical code paths:
* `EnhancedDailyGoalsService.calculatePersonalizedGoals`
  (src/unnamed/part_003 lines 1198-1320, duplicated in
  src/server/src/services/database/dailyGoals.ts lines 847-969);
* `EnhancedDailyGoalsService.createDailyGoalsForAllUsers` per-user loop
  (src/unnamed/part_003 lines 670-815);
* `EnhancedDailyGoalsService.getUserDailyGoals`
  (src/unnamed/part_003 lines 1006-1087);
* `EnhancedCronJobService.runJobSafely` (src/unnamed/part_001 lines 79-106).

JavaScript numbers are modelled as exact rationals (ℚ); the inputs in play
are small decimal fractions, where IEEE doubles and rationals agree on every
arithmetic step performed by the code.  `Math.round` is `⌊x + 1/2⌋`, which is
the JavaScript semantics (round half toward +∞) at every real input.
`console.log` side effects are dropped.
-/

namespace Calo

/-- JavaScript `Math.round`: round half toward positive infinity. -/
def jsRound (x : ℚ) : ℤ := ⌊x + 1/2⌋

/-- Character lowering.  JavaScript `toLowerCase` restricted to the ASCII
range; the gender markers the code compares against ("male", "זכר", "MALE")
contain only ASCII letters and Hebrew letters, on which the two agree. -/
def lowerStr (s : String) : String := ⟨s.data.map Char.toLower⟩

/-- Prefix test: the first list begins with the second, character by
character. -/
def listStarts : List Char → List Char → Bool
  | _, [] => true
  | [], _ :: _ => false
  | c :: cs, d :: ds => c == d && listStarts cs ds

/-- Substring test: the second list occurs contiguously in the first
(JavaScript `String.prototype.includes`). -/
def listHasSub : List Char → List Char → Bool
  | [], needle => needle.isEmpty
  | c :: cs, needle => listStarts (c :: cs) needle || listHasSub cs needle

/-- String-level substring test. -/
def strHasSub (hay needle : String) : Bool := listHasSub hay.data needle.data

/-- JavaScript `x || d` for numbers: `undefined`, `null` and `0` are falsy. -/
def numOr (v : Option ℚ) (d : ℚ) : ℚ :=
  match v with
  | none => d
  | some x => if x = 0 then d else x

/-- Latest questionnaire snapshot, the fields `calculatePersonalizedGoals`
reads (part_003 lines 1214-1290). -/
structure Questionnaire where
  weight_kg : Option ℚ
  height_cm : Option ℚ
  age : Option ℚ
  gender : Option String
  main_goal : Option String
  physical_activity_level : Option String
deriving Repr, DecidableEq

/-- The nutrition target record returned by the calculator, field order as in
the source's `finalGoals` object (part_003 lines 1307-1316). -/
structure NutritionGoals where
  calories : ℤ
  protein_g : ℤ
  carbs_g : ℤ
  fats_g : ℤ
  fiber_g : ℤ
  water_ml : ℤ
  sodium_mg : ℤ
  sugar_g : ℤ
deriving Repr, DecidableEq

/-- Sex classification (part_003 lines 1227-1229):
`gender?.toLowerCase().includes('male') ||
 gender?.toLowerCase().includes('זכר') || gender === 'MALE'`.
A missing gender is falsy throughout, hence female. -/
def isMaleGender (g : Option String) : Bool :=
  match g with
  | none => false
  | some s =>
      strHasSub (lowerStr s) "male" || strHasSub (lowerStr s) "זכר"
        || s == "MALE"

/-- Effective weight after the `|| 70` default (part_003 line 1224). -/
def weightOf (q : Questionnaire) : ℚ := numOr q.weight_kg 70

/-- Mifflin-St Jeor BMR (part_003 lines 1231-1236). -/
def bmrOf (q : Questionnaire) : ℚ :=
  let weight := numOr q.weight_kg 70
  let height := numOr q.height_cm 170
  let age := numOr q.age 25
  if isMaleGender q.gender then
    10 * weight + 6.25 * height - 5 * age + 5
  else
    10 * weight + 6.25 * height - 5 * age - 161

/-- Activity level string after the JavaScript default
`questionnaire.physical_activity_level || 'MODERATE'`
(part_003 line 1248); the empty string is falsy. -/
def activityLevelOf (q : Questionnaire) : String :=
  match q.physical_activity_level with
  | none => "MODERATE"
  | some s => if s == "" then "MODERATE" else s

/-- Activity multiplier lookup `activityMultipliers[activityLevel] || 1.55`
(part_003 lines 1241-1249): unrecognized keys fall back to 1.55. -/
def multiplierOf (level : String) : ℚ :=
  if level == "NONE" then 1.2
  else if level == "LIGHT" then 1.375
  else if level == "MODERATE" then 1.55
  else if level == "HIGH" then 1.725
  else 1.55

/-- Total daily energy expenditure (part_003 line 1250). -/
def tdeeOf (q : Questionnaire) : ℚ := bmrOf q * multiplierOf (activityLevelOf q)

/-- Goal-adjusted calories before the minimum floor
(part_003 lines 1258-1274); `switch` on `main_goal`, default = maintenance.
A missing goal hits the default branch. -/
def goalAdjustedCalories (q : Questionnaire) : ℤ :=
  let g := q.main_goal.getD ""
  if g == "WEIGHT_LOSS" then jsRound (tdeeOf q - 500)
  else if g == "WEIGHT_GAIN" then jsRound (tdeeOf q + 300)
  else if g == "SPORTS_PERFORMANCE" then jsRound (tdeeOf q + 200)
  else jsRound (tdeeOf q)

/-- Values of the local mutable variables just before the minimum-value
clamps (part_003 lines 1202-1300): the defaults, overwritten when a
questionnaire is present. -/
def rawGoals (oq : Option Questionnaire) : NutritionGoals :=
  match oq with
  | none =>
      { calories := 2000, protein_g := 120, carbs_g := 250, fats_g := 70
        fiber_g := 25, water_ml := 2500, sodium_mg := 2300, sugar_g := 50 }
  | some q =>
      let weight := numOr q.weight_kg 70
      let cal := goalAdjustedCalories q
      { calories := cal
        protein_g := jsRound (weight * 1.6)
        carbs_g := jsRound ((cal : ℚ) * 0.45 / 4)
        fats_g := jsRound ((cal : ℚ) * 0.30 / 9)
        fiber_g := max 25 (jsRound ((cal : ℚ) / 80))
        water_ml := jsRound (weight * 35)
          + (if activityLevelOf q == "HIGH" then 500 else 0)
        sodium_mg := 2300
        sugar_g := jsRound ((cal : ℚ) * 0.1 / 4) }

/-- The unconditional minimum-value clamps (part_003 lines 1302-1305):
`calories = Math.max(1200, calories); protein_g = Math.max(50, protein_g);
water_ml = Math.max(2000, water_ml)`. -/
def applyFloors (r : NutritionGoals) : NutritionGoals :=
  { r with
    calories := max 1200 r.calories
    protein_g := max 50 r.protein_g
    water_ml := max 2000 r.water_ml }

/-- The calculator `EnhancedDailyGoalsService.calculatePersonalizedGoals`
(part_003 lines 1198-1320). -/
def calculatePersonalizedGoals (oq : Option Questionnaire) : NutritionGoals :=
  applyFloors (rawGoals oq)

/-- The worked-example questionnaire of the spec:
weight 70 kg, height 170 cm, age 25, male, MODERATE activity, WEIGHT_LOSS. -/
def exC1 : Questionnaire :=
  { weight_kg := some 70, height_cm := some 170, age := some 25
    gender := some "male", main_goal := some "WEIGHT_LOSS"
    physical_activity_level := some "MODERATE" }

/-! ## Job scheduler (`EnhancedCronJobService`, part_001 lines 6-106)

The class keeps one process-wide boolean `isRunning` and a `lastRun` map.
`runJobSafely` runs no `await` between reading the guards and setting
`isRunning = true`, so on the single-threaded JavaScript event loop each
trigger call's guard section is atomic; overlapping triggers and job
completions interleave as whole steps.  `runningJobs` records the job
executions actually in flight (the body between `isRunning = true` and the
`finally`), and `lastCompleted` is observer bookkeeping recording when each
job kind last finished — the code itself stores no completion time, which is
what claim C6 is about. -/

/-- Scheduler bookkeeping.  `isRunning` and `lastRun` are the two static
fields of `EnhancedCronJobService` (part_001 lines 7-8). -/
structure SchedState where
  isRunning : Bool
  runningJobs : List String
  lastRun : List (String × ℤ)
  lastCompleted : List (String × ℤ)
deriving Repr, DecidableEq

/-- Map lookup, JavaScript `Map.prototype.get` over an association list. -/
def lookupTime : List (String × ℤ) → String → Option ℤ
  | [], _ => none
  | (k2, v) :: rest, k => if k2 == k then some v else lookupTime rest k

/-- Map update, JavaScript `Map.prototype.set`. -/
def setTime (m : List (String × ℤ)) (k : String) (v : ℤ) : List (String × ℤ) :=
  (k, v) :: m.filter (fun p => !(p.1 == k))

/-- Guarded job start, `EnhancedCronJobService.runJobSafely`
(part_001 lines 79-106): skip if any job is running; skip if this job kind
ran within the last 30 minutes (`now - lastRunTime < 30 * 60 * 1000`,
where `lastRun` was recorded when the job last STARTED); otherwise set the
flag, record `lastRun = now` and begin the execution. -/
def runJobSafely (jobName : String) (now : ℤ) (s : SchedState) : SchedState :=
  if s.isRunning then s
  else
    match lookupTime s.lastRun jobName with
    | some t0 =>
        if now - t0 < 30 * 60 * 1000 then s
        else
          { s with
            isRunning := true
            runningJobs := jobName :: s.runningJobs
            lastRun := setTime s.lastRun jobName now }
    | none =>
        { s with
          isRunning := true
          runningJobs := jobName :: s.runningJobs
          lastRun := setTime s.lastRun jobName now }

/-- Job completion: the `finally` block of `runJobSafely` (part_001
lines 103-105) clears the flag whether the body succeeded or threw; the
finished execution leaves `runningJobs` and its completion time is recorded
in the observer map. -/
def finishJob (now : ℤ) (s : SchedState) : SchedState :=
  match s.runningJobs with
  | [] => s
  | j :: rest =>
      { s with
        isRunning := false
        runningJobs := rest
        lastCompleted := setTime s.lastCompleted j now }

/-- Atomic scheduler events: a trigger call, or a running body finishing. -/
inductive SchedEvent where
  | trig (jobName : String) (now : ℤ)
  | done (now : ℤ)
deriving Repr, DecidableEq

/-- One interleaving step. -/
def schedStep (s : SchedState) (e : SchedEvent) : SchedState :=
  match e with
  | .trig j now => runJobSafely j now s
  | .done now => finishJob now s

/-- Process start: `isRunning = false`, empty `lastRun` map
(part_001 lines 7-8). -/
def initSchedState : SchedState :=
  { isRunning := false, runningJobs := [], lastRun := [], lastCompleted := [] }

/-- State after a whole trace of scheduler events. -/
def runTrace (tr : List SchedEvent) : SchedState :=
  tr.foldl schedStep initSchedState

/-- Invariant tying the boolean guard to the executions in flight. -/
def schedInv (s : SchedState) : Prop :=
  (s.isRunning = false → s.runningJobs = []) ∧
    (s.isRunning = true → s.runningJobs.length = 1)

/-! ## Population-wide batch (`createDailyGoalsForAllUsers`,
part_003 lines 596-815)

The per-user loop (lines 670-770) with the pre-run snapshot of existing
goals (line 668).  Storage is abstracted as an environment: `upsert`
returns the stored goal's id or throws, `verify` is the post-upsert
read-back returning whether the row was found, or throwing.  The
questionnaire map and users list come from the pre-loop queries. -/

/-- Outcome tag of a per-user detail entry (part_003 `details` actions). -/
inductive GoalAction where
  | created
  | updated
  | skipped
  | error
deriving Repr, DecidableEq, BEq

/-- One detail entry `{user_id, action, message}`. -/
structure GoalDetail where
  user_id : String
  action : GoalAction
  message : String
deriving Repr, DecidableEq

/-- The batch result record `DailyGoalCreationResult`
(part_003 lines 322-332 shape). -/
structure DailyGoalCreationResult where
  created : ℕ
  updated : ℕ
  skipped : ℕ
  errors : List String
  details : List GoalDetail
deriving Repr, DecidableEq

/-- Environment of one batch run: the user population, the latest
questionnaire per user, the pre-run snapshot `existingUserIds`, and the
storage operations with their possible failures. -/
structure BatchEnv where
  users : List String
  qmap : String → Option Questionnaire
  existing : List String
  upsert : String → NutritionGoals → Except String String
  verify : String → Except String Bool

/-- Per-user contribution to the run counters and lists. -/
structure BatchStep where
  c : ℕ
  upd : ℕ
  sk : ℕ
  errs : List String
  dets : List GoalDetail
deriving Repr, DecidableEq

/-- One iteration of the per-user loop (part_003 lines 674-769): calculate
goals, upsert; classify created/updated against the pre-run snapshot; then
the verification read-back.  A throw from `upsert` lands in the per-user
catch before any counter moved; a throw from `verify` lands there after
created/updated was already incremented.  A verification read returning no
row pushes only an error string, with no error detail (lines 756-759). -/
def processUser (env : BatchEnv) (u : String) : BatchStep :=
  let goals := calculatePersonalizedGoals (env.qmap u)
  match env.upsert u goals with
  | .error m =>
      { c := 0, upd := 0, sk := 0
        errs := ["User " ++ u ++ ": " ++ m]
        dets := [⟨u, .error, m⟩] }
  | .ok goalId =>
      let base : BatchStep :=
        if env.existing.contains u then
          { c := 0, upd := 1, sk := 0, errs := []
            dets := [⟨u, .updated, "Goal updated with ID " ++ goalId⟩] }
        else
          { c := 1, upd := 0, sk := 0, errs := []
            dets := [⟨u, .created, "Goal created with ID " ++ goalId⟩] }
      match env.verify u with
      | .ok true => base
      | .ok false =>
          { base with
            errs := base.errs ++ ["Verification failed for user " ++ u] }
      | .error m =>
          { base with
            errs := base.errs ++ ["User " ++ u ++ ": " ++ m]
            dets := base.dets ++ [⟨u, .error, m⟩] }

/-- The whole run `EnhancedDailyGoalsService.createDailyGoalsForAllUsers`
(part_003 lines 670-815): every user is processed in order, each inside its
own try/catch, and the counters and lists accumulate. -/
def createDailyGoalsForAllUsers (env : BatchEnv) : DailyGoalCreationResult :=
  let steps := env.users.map (processUser env)
  { created := (steps.map BatchStep.c).sum
    updated := (steps.map BatchStep.upd).sum
    skipped := (steps.map BatchStep.sk).sum
    errors := (steps.map BatchStep.errs).flatten
    details := (steps.map BatchStep.dets).flatten }

/-- User ids of the detail entries recorded with the error outcome. -/
def errorUsers (dets : List GoalDetail) : List String :=
  (dets.filter (fun d => d.action == GoalAction.error)).map GoalDetail.user_id

/-- Number of distinct users recorded with an error outcome in a run. -/
def distinctErrorUsers (r : DailyGoalCreationResult) : ℕ :=
  (errorUsers r.details).dedup.length

/-! ## Single-user read (`getUserDailyGoals`, part_003 lines 1006-1087) -/

/-- Environment of one `getUserDailyGoals` call: the questionnaire lookup
and the get-or-create upsert, each able to throw. -/
structure SingleGoalEnv where
  findQuestionnaire : Except String (Option Questionnaire)
  upsert : NutritionGoals → Except String NutritionGoals

/-- The try block of `getUserDailyGoals` (part_003 lines 1007-1071):
fetch the latest questionnaire, calculate goals, upsert, and return the
stored row's values. -/
def getUserDailyGoalsTry (env : SingleGoalEnv) : Except String NutritionGoals := do
  let oq ← env.findQuestionnaire
  let goals := calculatePersonalizedGoals oq
  let row ← env.upsert goals
  pure row

/-- The fixed safe-default bundle of the catch block
(part_003 lines 1076-1085). -/
def safeDefaultGoals : NutritionGoals :=
  { calories := 2000, protein_g := 150, carbs_g := 250, fats_g := 67
    fiber_g := 25, water_ml := 2500, sodium_mg := 2300, sugar_g := 50 }

/-- The whole of `getUserDailyGoals` (part_003 lines 1006-1087): the try
block, with every throw caught and replaced by the safe defaults. -/
def getUserDailyGoals (env : SingleGoalEnv) : NutritionGoals :=
  match getUserDailyGoalsTry env with
  | .ok g => g
  | .error _ => safeDefaultGoals

/-! ## Concrete inputs used by counterexamples and witnesses -/

/-- Scheduler state with the daily-goals job mid-flight. -/
def busyState : SchedState :=
  { isRunning := true, runningJobs := ["daily-goals"]
    lastRun := [("daily-goals", 0)], lastCompleted := [] }

/-- Trace: the daily-goals job starts at t=0 ms and completes at t=300000 ms
(five minutes later). -/
def spacingTrace : List SchedEvent :=
  [SchedEvent.trig "daily-goals" 0, SchedEvent.done 300000]

/-- Batch of one user whose upsert succeeds but whose verification read
throws. -/
def envC4 : BatchEnv :=
  { users := ["u1"], qmap := fun _ => none, existing := []
    upsert := fun _ _ => .ok "g1", verify := fun _ => .error "read failed" }

/-- Failure-free batch over two users, one with an existing row. -/
def envC4w : BatchEnv :=
  { users := ["u1", "u2"], qmap := fun _ => none, existing := ["u2"]
    upsert := fun _ _ => .ok "g1", verify := fun _ => .ok true }

/-- Failure-free same-day re-run: both users already have rows. -/
def envC7w : BatchEnv :=
  { users := ["u1", "u2"], qmap := fun _ => none, existing := ["u1", "u2"]
    upsert := fun _ _ => .ok "gid", verify := fun _ => .ok true }

/-- Batch where the first user's upsert throws and the second succeeds. -/
def envC9w : BatchEnv :=
  { users := ["u1", "u2"], qmap := fun _ => none, existing := []
    upsert := fun u _ => if u == "u1" then .error "db down" else .ok "gid"
    verify := fun _ => .ok true }

/-- Single-user environment whose storage upsert throws. -/
def envC10w : SingleGoalEnv :=
  { findQuestionnaire := .ok none
    upsert := fun _ => .error "insert failed" }

end Calo

namespace Calo

/-! ## Claim theorems -/

/-- C1 (counterexample): at the worked-example profile (70 kg, 170 cm,
age 25, male, MODERATE, WEIGHT_LOSS) the code computes
bmr = 10*70 + 6.25*170 - 5*25 + 5 = 1642.5 and calories = 2046, not the
bmr = 1680.5 and calories = 2105 the claim states. -/
theorem workedExample_spec_refuted :
    bmrOf exC1 = 1642.5 ∧ (1642.5 : ℚ) ≠ 1680.5 ∧
    (calculatePersonalizedGoals (some exC1)).calories = 2046 ∧
    (2046 : ℤ) ≠ 2105 :=
  ⟨by with_unfolding_all rfl, by norm_num, by with_unfolding_all rfl,
    by norm_num⟩

/-- C1 (amended): for the profile weight=70kg, height=170cm, age=25, male,
activity MODERATE, goal WEIGHT_LOSS, the calculator produces bmr=1642.5,
tdee=2545.875, and the output record calories=2046, protein_g=112,
carbs_g=230, fats_g=68, water_ml=2450, fiber_g=26, sugar_g=51. -/
theorem workedExample_amended :
    bmrOf exC1 = 1642.5 ∧ tdeeOf exC1 = 2545.875 ∧
    calculatePersonalizedGoals (some exC1) =
      { calories := 2046, protein_g := 112, carbs_g := 230, fats_g := 68
        fiber_g := 26, water_ml := 2450, sodium_mg := 2300, sugar_g := 51 } :=
  ⟨by with_unfolding_all rfl, by with_unfolding_all rfl,
    by with_unfolding_all rfl⟩

/-- C2 (counterexample): with the profile absent the calculator returns
protein_g = 120 and fats_g = 70, not the claimed 150 and 67 (which are the
`getUserDailyGoals` catch-block fallback, a different bundle). -/
theorem absentProfile_spec_refuted :
    (calculatePersonalizedGoals none).protein_g = 120 ∧ (120 : ℤ) ≠ 150 ∧
    (calculatePersonalizedGoals none).fats_g = 70 ∧ (70 : ℤ) ≠ 67 :=
  ⟨rfl, by decide, rfl, by decide⟩

/-- C2 (amended): when the profile/questionnaire is absent, the calculator
returns exactly calories=2000, protein_g=120, carbs_g=250, fats_g=70,
fiber_g=25, sodium_mg=2300, sugar_g=50, water_ml=2500. -/
theorem absentProfile_amended :
    calculatePersonalizedGoals none =
      { calories := 2000, protein_g := 120, carbs_g := 250, fats_g := 70
        fiber_g := 25, water_ml := 2500, sodium_mg := 2300, sugar_g := 50 } :=
  rfl

/-- C3: for every profile input (present or absent, any field values) the
calculator output satisfies calories ≥ 1200 and water_ml ≥ 2000, because the
final clamps apply unconditionally. -/
theorem minimum_floors (oq : Option Questionnaire) :
    1200 ≤ (calculatePersonalizedGoals oq).calories ∧
    2000 ≤ (calculatePersonalizedGoals oq).water_ml :=
  ⟨le_max_left _ _, le_max_left _ _⟩

/-- C8 (counterexample): the gender string "זכר" contains no
case-insensitive "male" substring, yet the code classifies it as male, so
classification is not the "male"-marker match alone. -/
theorem sexClassification_spec_refuted :
    isMaleGender (some "זכר") = true ∧
    strHasSub (lowerStr "זכר") "male" = false :=
  ⟨rfl, rfl⟩

/-- C8 (amended): the calculator classifies a gender string as male exactly
when its lowercase form contains "male", or contains the Hebrew marker
"זכר", or the string is exactly "MALE"; every other value (including a
missing gender) is treated as female. -/
theorem sexClassification_amended (g : String) :
    (isMaleGender (some g) = true ↔
      (strHasSub (lowerStr g) "male" = true ∨
        strHasSub (lowerStr g) "זכר" = true ∨ g = "MALE")) ∧
    isMaleGender none = false := by
  constructor
  · simp [isMaleGender, Bool.or_eq_true, beq_iff_eq, or_assoc]
  · rfl

/-- C8 (amended, witness): "Male" lowercases to a string containing "male"
and is classified male. -/
theorem sexClassification_amended_witness : isMaleGender (some "Male") = true :=
  (sexClassification_amended "Male").1.mpr (Or.inl rfl)

end Calo

namespace Calo

/-- The invariant holds at process start. -/
theorem schedInv_init : schedInv initSchedState :=
  ⟨fun _ => rfl, fun h => by simp [initSchedState] at h⟩

/-- Every scheduler event preserves the invariant. -/
theorem schedInv_step (s : SchedState) (e : SchedEvent) (h : schedInv s) :
    schedInv (schedStep s e) := by
  obtain ⟨h0, h1⟩ := h
  cases e with
  | trig j now =>
      show schedInv (runJobSafely j now s)
      unfold runJobSafely
      by_cases hr : s.isRunning
      · simp only [hr, if_true]
        exact ⟨h0, h1⟩
      · have hr2 : s.isRunning = false := by simpa using hr
        have hemp : s.runningJobs = [] := h0 hr2
        simp only [hr2, Bool.false_eq_true, if_false]
        cases hml : lookupTime s.lastRun j with
        | none =>
            exact ⟨fun hfalse => by simp at hfalse, fun _ => by simp [hemp]⟩
        | some t0 =>
            by_cases hlt : now - t0 < 30 * 60 * 1000
            · simp only [hlt, if_true]
              exact ⟨h0, h1⟩
            · simp only [hlt, if_false]
              exact ⟨fun hfalse => by simp at hfalse, fun _ => by simp [hemp]⟩
  | done now =>
      show schedInv (finishJob now s)
      unfold finishJob
      cases hl : s.runningJobs with
      | nil => exact ⟨h0, h1⟩
      | cons j rest =>
          cases hr : s.isRunning with
          | false => exact absurd (h0 hr) (by simp [hl])
          | true =>
              have hlen : (j :: rest).length = 1 := hl ▸ h1 hr
              have hrest : rest = [] := by simpa using hlen
              exact ⟨fun _ => by simp [hrest], fun hcontr => by simp at hcontr⟩

/-- The invariant holds after every trace of scheduler events. -/
theorem schedInv_runTrace (tr : List SchedEvent) : schedInv (runTrace tr) := by
  show schedInv (tr.foldl schedStep initSchedState)
  have key : ∀ (s : SchedState), schedInv s → schedInv (tr.foldl schedStep s) := by
    induction tr with
    | nil => exact fun s hs => hs
    | cons e rest ih => exact fun s hs => ih _ (schedInv_step s e hs)
  exact key initSchedState schedInv_init

/-- C5: a trigger call arriving while any job is running changes nothing
(the second overlapping call is a no-op), and along every interleaving of
trigger and completion events at most one execution is ever in flight,
across all job kinds. -/
theorem singleFlight (s : SchedState) (j : String) (t : ℤ)
    (tr : List SchedEvent) :
    (s.isRunning = true → runJobSafely j t s = s) ∧
    (runTrace tr).runningJobs.length ≤ 1 := by
  constructor
  · intro h
    simp [runJobSafely, h]
  · have h := schedInv_runTrace tr
    cases hr : (runTrace tr).isRunning
    · simp [h.1 hr]
    · exact Nat.le_of_eq (h.2 hr)

/-- C5 (witness): with the daily-goals job mid-flight, a trigger for the
ai-recommendations kind is a no-op, and a concrete two-trigger trace leaves
at most one execution running. -/
theorem singleFlight_witness :
    runJobSafely "ai-recommendations" 60000 busyState = busyState ∧
    (runTrace [SchedEvent.trig "daily-goals" 0,
        SchedEvent.trig "ai-recommendations" 1]).runningJobs.length ≤ 1 :=
  ⟨(singleFlight busyState "ai-recommendations" 60000 []).1 rfl,
    (singleFlight busyState "x" 0
      [SchedEvent.trig "daily-goals" 0,
        SchedEvent.trig "ai-recommendations" 1]).2⟩

/-- C6 (counterexample): the daily-goals job starts at t=0 and completes at
t=300000 ms; a trigger at t=1860000 ms (26 minutes after completion, inside
the 30-minute window) nevertheless starts the job, because the code measures
spacing from the recorded start time, not from completion. -/
theorem spacingWindow_spec_refuted :
    lookupTime (runTrace spacingTrace).lastCompleted "daily-goals"
        = some 300000 ∧
    ((1860000 : ℤ) - 300000 < 30 * 60 * 1000) ∧
    (runTrace spacingTrace).isRunning = false ∧
    (runJobSafely "daily-goals" 1860000 (runTrace spacingTrace)).isRunning
        = true ∧
    (runJobSafely "daily-goals" 1860000 (runTrace spacingTrace)).runningJobs
        = ["daily-goals"] :=
  ⟨by decide, by decide, by decide, by decide, by decide⟩

/-- C6 (amended): a job kind is never started within 30 minutes of the time
recorded when it last STARTED (the code records `lastRun` at job start, not
at completion), and this refusal holds whatever the single-flight flag says,
so it is a check separate from the single-flight guard. -/
theorem spacingWindow_from_start (s : SchedState) (j : String) (now t0 : ℤ)
    (hl : lookupTime s.lastRun j = some t0)
    (hw : now - t0 < 30 * 60 * 1000) :
    runJobSafely j now s = s := by
  unfold runJobSafely
  by_cases hr : s.isRunning
  · simp [hr]
  · have hr2 : s.isRunning = false := by simpa using hr
    simp only [hr2, Bool.false_eq_true, if_false, hl]
    exact if_pos hw

/-- C6 (amended, witness): 500 seconds after the daily-goals job started it
refuses to start again. -/
theorem spacingWindow_from_start_witness :
    runJobSafely "daily-goals" 500000 (runTrace spacingTrace)
      = runTrace spacingTrace :=
  spacingWindow_from_start (runTrace spacingTrace) "daily-goals" 500000 0
    (by decide) (by decide)

end Calo

namespace Calo

/-- Splitting error-outcome users over concatenated detail lists. -/
theorem errorUsers_append (l1 l2 : List GoalDetail) :
    errorUsers (l1 ++ l2) = errorUsers l1 ++ errorUsers l2 := by
  simp [errorUsers, List.filter_append]

/-- Lists of length at most one have no duplicates. -/
theorem short_nodup (l : List String) (h : l.length ≤ 1) : l.Nodup := by
  cases l with
  | nil => exact List.nodup_nil
  | cons a t =>
      cases t with
      | nil => exact List.nodup_singleton a
      | cons b t2 => simp at h

/-- Evaluation facts for the derived boolean equality on outcome tags. -/
theorem beq_error_error : (GoalAction.error == GoalAction.error) = true := rfl

/-- Updated is not the error tag. -/
theorem beq_updated_error : (GoalAction.updated == GoalAction.error) = false := rfl

/-- Created is not the error tag. -/
theorem beq_created_error : (GoalAction.created == GoalAction.error) = false := rfl

/-- A user whose verification read does not throw contributes exactly one
unit across the created/updated/skipped counters and the error-outcome
details. -/
theorem processUser_contribution (env : BatchEnv) (u : String)
    (hv : ∀ m, env.verify u ≠ Except.error m) :
    (processUser env u).c + (processUser env u).upd + (processUser env u).sk
      + (errorUsers (processUser env u).dets).length = 1 := by
  simp only [processUser]
  cases hup : env.upsert u (calculatePersonalizedGoals (env.qmap u)) with
  | error m =>
      simp [errorUsers, beq_error_error]
  | ok gid =>
      cases hver : env.verify u with
      | error m => exact absurd hver (hv m)
      | ok b =>
          cases b <;> by_cases hex : u ∈ env.existing <;>
            simp [hex, errorUsers, beq_updated_error, beq_created_error]

/-- Every error-outcome user of one iteration is that iteration's user. -/
theorem processUser_errorUsers_sub (env : BatchEnv) (u : String) :
    ∀ x ∈ errorUsers (processUser env u).dets, x = u := by
  simp only [processUser]
  cases env.upsert u (calculatePersonalizedGoals (env.qmap u)) with
  | error m =>
      intro x hx
      simp [errorUsers, beq_error_error] at hx
      exact hx
  | ok gid =>
      cases env.verify u with
      | error m =>
          by_cases hex : u ∈ env.existing <;> intro x hx <;>
            simp [hex, errorUsers, beq_error_error, beq_updated_error,
              beq_created_error] at hx <;>
            exact hx
      | ok b =>
          cases b <;> by_cases hex : u ∈ env.existing <;> intro x hx <;>
            simp [hex, errorUsers, beq_updated_error, beq_created_error] at hx

/-- One iteration records at most one error-outcome user. -/
theorem processUser_errorUsers_len (env : BatchEnv) (u : String) :
    (errorUsers (processUser env u).dets).length ≤ 1 := by
  simp only [processUser]
  cases env.upsert u (calculatePersonalizedGoals (env.qmap u)) with
  | error m => simp [errorUsers, beq_error_error]
  | ok gid =>
      cases env.verify u with
      | error m =>
          by_cases hex : u ∈ env.existing <;>
            simp [hex, errorUsers, beq_error_error, beq_updated_error,
              beq_created_error]
      | ok b =>
          cases b <;> by_cases hex : u ∈ env.existing <;>
            simp [hex, errorUsers, beq_updated_error, beq_created_error]

/-- Counter conservation over a list of users, all of whose verification
reads return. -/
theorem batch_sum_general (env : BatchEnv) (us : List String)
    (hv : ∀ u ∈ us, ∀ m, env.verify u ≠ Except.error m) :
    ((us.map (processUser env)).map BatchStep.c).sum
      + ((us.map (processUser env)).map BatchStep.upd).sum
      + ((us.map (processUser env)).map BatchStep.sk).sum
      + (errorUsers ((us.map (processUser env)).map BatchStep.dets).flatten).length
      = us.length := by
  induction us with
  | nil => simp [errorUsers]
  | cons u rest ih =>
      have h1 := processUser_contribution env u (hv u (List.mem_cons_self u rest))
      have h2 := ih (fun v hvmem m => hv v (List.mem_cons_of_mem u hvmem) m)
      simp only [List.map_cons, List.sum_cons, List.flatten_cons,
        List.length_cons, errorUsers_append, List.length_append]
      omega

/-- Every error-outcome user of a run was one of the examined users. -/
theorem batch_errorUsers_mem (env : BatchEnv) (us : List String) (x : String)
    (hx : x ∈ errorUsers ((us.map (processUser env)).map BatchStep.dets).flatten) :
    x ∈ us := by
  induction us with
  | nil => simp [errorUsers] at hx
  | cons u rest ih =>
      simp only [List.map_cons, List.flatten_cons, errorUsers_append,
        List.mem_append] at hx
      cases hx with
      | inl h =>
          rw [processUser_errorUsers_sub env u x h]
          exact List.mem_cons_self u rest
      | inr h => exact List.mem_cons_of_mem u (ih h)

/-- With distinct user ids, the error-outcome users of a run are distinct. -/
theorem batch_errorUsers_nodup (env : BatchEnv) (us : List String)
    (hnd : us.Nodup) :
    (errorUsers ((us.map (processUser env)).map BatchStep.dets).flatten).Nodup := by
  induction us with
  | nil => simp [errorUsers]
  | cons u rest ih =>
      obtain ⟨hu, hrest⟩ := List.nodup_cons.mp hnd
      simp only [List.map_cons, List.flatten_cons, errorUsers_append]
      refine List.Nodup.append
        (short_nodup _ (processUser_errorUsers_len env u)) (ih hrest) ?_
      intro x hx1 hx2
      have hxu : x = u := processUser_errorUsers_sub env u x hx1
      have hxr : x ∈ rest := batch_errorUsers_mem env rest x hx2
      exact hu (hxu ▸ hxr)

/-- C4 (counterexample): a one-user batch whose upsert succeeds and whose
verification read then throws counts the user as created AND records an
error-outcome detail for the same user, so
created+updated+skipped+distinct_error_users = 2 while only 1 user was
examined. -/
theorem batch_conservation_refuted :
    (createDailyGoalsForAllUsers envC4).created = 1 ∧
    (createDailyGoalsForAllUsers envC4).updated = 0 ∧
    (createDailyGoalsForAllUsers envC4).skipped = 0 ∧
    distinctErrorUsers (createDailyGoalsForAllUsers envC4) = 1 ∧
    envC4.users.length = 1 ∧ (1 + 0 + 0 + 1 : ℕ) ≠ 1 :=
  ⟨rfl, rfl, rfl, rfl, rfl, by decide⟩

/-- C4 (amended): when the examined users are distinct and no verification
read throws (the only exception point after a counter increment),
created + updated + skipped + distinct error-outcome users equals the number
of users examined. -/
theorem batch_conservation (env : BatchEnv) (hnd : env.users.Nodup)
    (hv : ∀ u ∈ env.users, ∀ m, env.verify u ≠ Except.error m) :
    (createDailyGoalsForAllUsers env).created
      + (createDailyGoalsForAllUsers env).updated
      + (createDailyGoalsForAllUsers env).skipped
      + distinctErrorUsers (createDailyGoalsForAllUsers env)
      = env.users.length := by
  have h1 := batch_sum_general env env.users hv
  have h2 := batch_errorUsers_nodup env env.users hnd
  simp only [createDailyGoalsForAllUsers, distinctErrorUsers]
  rw [List.dedup_eq_self.mpr h2]
  exact h1

/-- C4 (amended, witness): a failure-free two-user run conserves the
counters. -/
theorem batch_conservation_witness :
    (createDailyGoalsForAllUsers envC4w).created
      + (createDailyGoalsForAllUsers envC4w).updated
      + (createDailyGoalsForAllUsers envC4w).skipped
      + distinctErrorUsers (createDailyGoalsForAllUsers envC4w)
      = envC4w.users.length :=
  batch_conservation envC4w (by decide)
    (by intro u hu m h; simp [envC4w] at h)

/-- A same-day re-run iteration: existing row, successful upsert, successful
verification — classified updated with no error. -/
theorem processUser_rerun (env : BatchEnv) (u : String)
    (hex : u ∈ env.existing)
    (hup : ∃ gid,
      env.upsert u (calculatePersonalizedGoals (env.qmap u)) = Except.ok gid)
    (hver : env.verify u = Except.ok true) :
    (processUser env u).c = 0 ∧ (processUser env u).upd = 1 ∧
    (processUser env u).sk = 0 ∧ (processUser env u).errs = [] := by
  obtain ⟨gid, hgid⟩ := hup
  simp [processUser, hgid, hver, hex]

/-- Re-run outcome over a whole list of users. -/
theorem batch_rerun_general (env : BatchEnv) (us : List String)
    (hex : ∀ u ∈ us, u ∈ env.existing)
    (hup : ∀ u ∈ us, ∃ gid,
      env.upsert u (calculatePersonalizedGoals (env.qmap u)) = Except.ok gid)
    (hver : ∀ u ∈ us, env.verify u = Except.ok true) :
    ((us.map (processUser env)).map BatchStep.c).sum = 0 ∧
    ((us.map (processUser env)).map BatchStep.upd).sum = us.length ∧
    ((us.map (processUser env)).map BatchStep.sk).sum = 0 ∧
    ((us.map (processUser env)).map BatchStep.errs).flatten = [] := by
  induction us with
  | nil => simp
  | cons u rest ih =>
      have hu := processUser_rerun env u (hex u (List.mem_cons_self u rest))
        (hup u (List.mem_cons_self u rest)) (hver u (List.mem_cons_self u rest))
      have hr := ih (fun v hv2 => hex v (List.mem_cons_of_mem u hv2))
        (fun v hv2 => hup v (List.mem_cons_of_mem u hv2))
        (fun v hv2 => hver v (List.mem_cons_of_mem u hv2))
      simp only [List.map_cons, List.sum_cons, List.flatten_cons, List.length_cons]
      refine ⟨?_, ?_, ?_, ?_⟩
      · rw [hu.1, hr.1]
      · rw [hu.2.1, hr.2.1]
        omega
      · rw [hu.2.2.1, hr.2.2.1]
      · rw [hu.2.2.2, hr.2.2.2]
        simp

/-- C7: re-running the batch on a day where every examined user already has
a row (and the storage operations succeed) reports created=0,
updated=total, skipped=0 and an empty error list. -/
theorem batch_rerun_all_updated (env : BatchEnv)
    (hex : ∀ u ∈ env.users, u ∈ env.existing)
    (hup : ∀ u ∈ env.users, ∃ gid,
      env.upsert u (calculatePersonalizedGoals (env.qmap u)) = Except.ok gid)
    (hver : ∀ u ∈ env.users, env.verify u = Except.ok true) :
    (createDailyGoalsForAllUsers env).created = 0 ∧
    (createDailyGoalsForAllUsers env).updated = env.users.length ∧
    (createDailyGoalsForAllUsers env).skipped = 0 ∧
    (createDailyGoalsForAllUsers env).errors = [] := by
  have h := batch_rerun_general env env.users hex hup hver
  simp only [createDailyGoalsForAllUsers]
  exact h

/-- C7 (witness): a concrete failure-free two-user re-run reports
created=0, updated=2, skipped=0, errors=[]. -/
theorem batch_rerun_all_updated_witness :
    (createDailyGoalsForAllUsers envC7w).created = 0 ∧
    (createDailyGoalsForAllUsers envC7w).updated = 2 ∧
    (createDailyGoalsForAllUsers envC7w).skipped = 0 ∧
    (createDailyGoalsForAllUsers envC7w).errors = [] := by
  have h := batch_rerun_all_updated envC7w (by decide)
    (fun u _ => ⟨"gid", rfl⟩) (fun u _ => rfl)
  exact ⟨h.1, h.2.1, h.2.2.1, h.2.2.2⟩

/-- Every examined user leaves at least one detail entry carrying their id. -/
theorem processUser_has_detail (env : BatchEnv) (u : String) :
    ∃ d ∈ (processUser env u).dets, d.user_id = u := by
  simp only [processUser]
  cases env.upsert u (calculatePersonalizedGoals (env.qmap u)) with
  | error m => exact ⟨⟨u, GoalAction.error, m⟩, by simp, rfl⟩
  | ok gid =>
      cases env.verify u with
      | error m =>
          by_cases hex : u ∈ env.existing
          · refine ⟨⟨u, GoalAction.updated, "Goal updated with ID " ++ gid⟩,
              ?_, rfl⟩
            simp [hex]
          · refine ⟨⟨u, GoalAction.created, "Goal created with ID " ++ gid⟩,
              ?_, rfl⟩
            simp [hex]
      | ok b =>
          cases b
          · by_cases hex : u ∈ env.existing
            · refine ⟨⟨u, GoalAction.updated, "Goal updated with ID " ++ gid⟩,
                ?_, rfl⟩
              simp [hex]
            · refine ⟨⟨u, GoalAction.created, "Goal created with ID " ++ gid⟩,
                ?_, rfl⟩
              simp [hex]
          · by_cases hex : u ∈ env.existing
            · refine ⟨⟨u, GoalAction.updated, "Goal updated with ID " ++ gid⟩,
                ?_, rfl⟩
              simp [hex]
            · refine ⟨⟨u, GoalAction.created, "Goal created with ID " ++ gid⟩,
                ?_, rfl⟩
              simp [hex]

/-- C9: an upsert exception for one user is caught and recorded as an
error-outcome detail carrying that user's id and the error message, and
every examined user — before or after the failing one — still gets a detail
entry of their own; the run as a whole always returns a result, so no
per-user exception escapes the batch. -/
theorem batch_isolates_user_errors (env : BatchEnv) :
    (∀ u m, u ∈ env.users →
        env.upsert u (calculatePersonalizedGoals (env.qmap u))
          = Except.error m →
        GoalDetail.mk u GoalAction.error m
          ∈ (createDailyGoalsForAllUsers env).details) ∧
    (∀ v ∈ env.users,
        ∃ d ∈ (createDailyGoalsForAllUsers env).details, d.user_id = v) := by
  constructor
  · intro u m hu hup
    simp only [createDailyGoalsForAllUsers]
    rw [List.mem_flatten]
    refine ⟨(processUser env u).dets, ?_, ?_⟩
    · exact List.mem_map_of_mem BatchStep.dets
        (List.mem_map_of_mem (processUser env) hu)
    · simp only [processUser, hup]
      simp
  · intro v hv
    obtain ⟨d, hd, hdid⟩ := processUser_has_detail env v
    refine ⟨d, ?_, hdid⟩
    simp only [createDailyGoalsForAllUsers]
    rw [List.mem_flatten]
    exact ⟨(processUser env v).dets,
      List.mem_map_of_mem BatchStep.dets
        (List.mem_map_of_mem (processUser env) hv), hd⟩

/-- C9 (witness): in a two-user run where the first user's upsert throws
"db down", the error detail for that user is recorded and the second user
still gets a detail entry. -/
theorem batch_isolates_user_errors_witness :
    GoalDetail.mk "u1" GoalAction.error "db down"
        ∈ (createDailyGoalsForAllUsers envC9w).details ∧
    ∃ d ∈ (createDailyGoalsForAllUsers envC9w).details, d.user_id = "u2" :=
  ⟨(batch_isolates_user_errors envC9w).1 "u1" "db down" (by decide) rfl,
    (batch_isolates_user_errors envC9w).2 "u2" (by decide)⟩

/-- C10: getUserDailyGoals never raises: whenever any internal step of the
try block (questionnaire read, goal calculation, upsert) throws, the call
returns exactly the fixed safe-default bundle instead of propagating the
failure. -/
theorem getUserDailyGoals_safe_fallback (env : SingleGoalEnv) (e : String)
    (h : getUserDailyGoalsTry env = Except.error e) :
    getUserDailyGoals env =
      { calories := 2000, protein_g := 150, carbs_g := 250, fats_g := 67
        fiber_g := 25, water_ml := 2500, sodium_mg := 2300, sugar_g := 50 } := by
  unfold getUserDailyGoals
  rw [h]
  rfl

/-- C10 (witness): with a throwing storage upsert, the call returns the
safe-default bundle. -/
theorem getUserDailyGoals_safe_fallback_witness :
    getUserDailyGoals envC10w =
      { calories := 2000, protein_g := 150, carbs_g := 250, fats_g := 67
        fiber_g := 25, water_ml := 2500, sodium_mg := 2300, sugar_g := 50 } :=
  getUserDailyGoals_safe_fallback envC10w "insert failed" rfl

end Calo
